import Mathlib

set_option maxHeartbeats 1000000
set_option maxRecDepth 8192

/-!
Shallow embedding of the mcp-postgres request/response bridge.

The embedding covers `src/main.rs` (the protocol gateway: `messages_handler`,
`handle_initialize`, `handle_list_tools`, `json_error`, the publish retry
loop) and `src/handlers/queries.rs` (the query safety and shaping engine and
the six tool handlers).  The backing store is an external collaborator and is
modelled as an oracle mapping query text to result rows; the tokio broadcast
channel is modelled by its documented send semantics.  `error.rs` and `mcp.rs`
are not among the provided sources, so the error type and the wire structs
are modelled from the spec, as marked on their doc comments.

Rust string operations are modelled over `List Char` so that every definition
evaluates inside the kernel.
-/

/-- JSON values, embedding serde_json::Value.  Numbers are modelled as
rationals; every numeric value a stated property touches is exactly
representable. -/
inductive Json where
  | null : Json
  | bool (b : Bool) : Json
  | num (q : Rat) : Json
  | str (s : String) : Json
  | arr (elems : List Json) : Json
  | obj (fields : List (String × Json)) : Json

/-- serde_json `Value::get` with a string key: field lookup on an object,
`None` on every other variant. -/
def jsonGet (j : Json) (key : String) : Option Json :=
  match j with
  | Json.obj fields => fields.lookup key
  | _ => Option.none

/-- serde_json `Value::as_str`. -/
def jsonAsStr : Json → Option String
  | Json.str s => some s
  | _ => none

/-- serde_json `Value::as_f64`: some on a number, none otherwise (numbers are
rationals here, so no rounding is involved). -/
def jsonAsF64 : Json → Option Rat
  | Json.num q => some q
  | _ => none

/-- serde_json `Value::is_null`. -/
def isNullJson : Json → Bool
  | Json.null => true
  | _ => false

/-- The row cap: `const MAX_ROWS: usize = 500` in queries.rs. -/
def MAX_ROWS : Nat := 500

/-- Rust `str::trim` removes leading and trailing whitespace.  `Char.isWhitespace`
covers space, tab, CR and LF; Rust trims the full Unicode class, but the
difference cannot turn a non-SELECT text into one beginning with SELECT. -/
def trimChars (cs : List Char) : List Char :=
  ((cs.dropWhile Char.isWhitespace).reverse.dropWhile Char.isWhitespace).reverse

/-- Rust `str::to_uppercase`, restricted to the ASCII mapping.  Rust uppercases
full Unicode; the two agree on whether the result starts with the ASCII
keywords `SELECT` / `WITH` for all inputs the stated properties quantify over. -/
def upperChars (cs : List Char) : List Char := cs.map Char.toUpper

/-- Rust `str::starts_with`. -/
def startsWithChars (pre cs : List Char) : Bool := pre.isPrefixOf cs

/-- The read-only guard `is_read_only` of queries.rs: trim, uppercase, accept
exactly the SELECT / WITH prefixes. -/
def is_read_only (sql : String) : Bool :=
  let normalized := upperChars (trimChars sql.toList)
  startsWithChars "SELECT".toList normalized || startsWithChars "WITH".toList normalized

/-- The code points on which Rust `char::is_alphanumeric` holds, as closed
ranges.  `is_alphanumeric` is `is_alphabetic() || is_numeric()`: the Unicode
Alphabetic derived property together with the general categories Nd, Nl and
No.  The ranges below are the full table of that union, taken from the
Unicode 14.0.0 character database (a Rust toolchain ships the table of its
own pinned Unicode version, so only code points added to Unicode after 14.0
could differ between releases).  It is strictly wider than ASCII
`[A-Za-z0-9]`: for example U+00E9 (e with acute accent) and U+0100 are
alphanumeric. -/
def rustAlnumRanges : List (Nat × Nat) :=
  [(0x30, 0x39), (0x41, 0x5A), (0x61, 0x7A), (0xAA, 0xAA), (0xB2, 0xB3),
   (0xB5, 0xB5), (0xB9, 0xBA), (0xBC, 0xBE), (0xC0, 0xD6), (0xD8, 0xF6),
   (0xF8, 0x2C1), (0x2C6, 0x2D1), (0x2E0, 0x2E4), (0x2EC, 0x2EC), (0x2EE, 0x2EE),
   (0x345, 0x345), (0x370, 0x374), (0x376, 0x377), (0x37A, 0x37D), (0x37F, 0x37F),
   (0x386, 0x386), (0x388, 0x38A), (0x38C, 0x38C), (0x38E, 0x3A1), (0x3A3, 0x3F5),
   (0x3F7, 0x481), (0x48A, 0x52F), (0x531, 0x556), (0x559, 0x559), (0x560, 0x588),
   (0x5B0, 0x5BD), (0x5BF, 0x5BF), (0x5C1, 0x5C2), (0x5C4, 0x5C5), (0x5C7, 0x5C7),
   (0x5D0, 0x5EA), (0x5EF, 0x5F2), (0x610, 0x61A), (0x620, 0x657), (0x659, 0x669),
   (0x66E, 0x6D3), (0x6D5, 0x6DC), (0x6E1, 0x6E8), (0x6ED, 0x6FC), (0x6FF, 0x6FF),
   (0x710, 0x73F), (0x74D, 0x7B1), (0x7C0, 0x7EA), (0x7F4, 0x7F5), (0x7FA, 0x7FA),
   (0x800, 0x817), (0x81A, 0x82C), (0x840, 0x858), (0x860, 0x86A), (0x870, 0x887),
   (0x889, 0x88E), (0x8A0, 0x8C9), (0x8D4, 0x8DF), (0x8E3, 0x8E9), (0x8F0, 0x93B),
   (0x93D, 0x94C), (0x94E, 0x950), (0x955, 0x963), (0x966, 0x96F), (0x971, 0x983),
   (0x985, 0x98C), (0x98F, 0x990), (0x993, 0x9A8), (0x9AA, 0x9B0), (0x9B2, 0x9B2),
   (0x9B6, 0x9B9), (0x9BD, 0x9C4), (0x9C7, 0x9C8), (0x9CB, 0x9CC), (0x9CE, 0x9CE),
   (0x9D7, 0x9D7), (0x9DC, 0x9DD), (0x9DF, 0x9E3), (0x9E6, 0x9F1), (0x9F4, 0x9F9),
   (0x9FC, 0x9FC), (0xA01, 0xA03), (0xA05, 0xA0A), (0xA0F, 0xA10), (0xA13, 0xA28),
   (0xA2A, 0xA30), (0xA32, 0xA33), (0xA35, 0xA36), (0xA38, 0xA39), (0xA3E, 0xA42),
   (0xA47, 0xA48), (0xA4B, 0xA4C), (0xA51, 0xA51), (0xA59, 0xA5C), (0xA5E, 0xA5E),
   (0xA66, 0xA75), (0xA81, 0xA83), (0xA85, 0xA8D), (0xA8F, 0xA91), (0xA93, 0xAA8),
   (0xAAA, 0xAB0), (0xAB2, 0xAB3), (0xAB5, 0xAB9), (0xABD, 0xAC5), (0xAC7, 0xAC9),
   (0xACB, 0xACC), (0xAD0, 0xAD0), (0xAE0, 0xAE3), (0xAE6, 0xAEF), (0xAF9, 0xAFC),
   (0xB01, 0xB03), (0xB05, 0xB0C), (0xB0F, 0xB10), (0xB13, 0xB28), (0xB2A, 0xB30),
   (0xB32, 0xB33), (0xB35, 0xB39), (0xB3D, 0xB44), (0xB47, 0xB48), (0xB4B, 0xB4C),
   (0xB56, 0xB57), (0xB5C, 0xB5D), (0xB5F, 0xB63), (0xB66, 0xB6F), (0xB71, 0xB77),
   (0xB82, 0xB83), (0xB85, 0xB8A), (0xB8E, 0xB90), (0xB92, 0xB95), (0xB99, 0xB9A),
   (0xB9C, 0xB9C), (0xB9E, 0xB9F), (0xBA3, 0xBA4), (0xBA8, 0xBAA), (0xBAE, 0xBB9),
   (0xBBE, 0xBC2), (0xBC6, 0xBC8), (0xBCA, 0xBCC), (0xBD0, 0xBD0), (0xBD7, 0xBD7),
   (0xBE6, 0xBF2), (0xC00, 0xC03), (0xC05, 0xC0C), (0xC0E, 0xC10), (0xC12, 0xC28),
   (0xC2A, 0xC39), (0xC3D, 0xC44), (0xC46, 0xC48), (0xC4A, 0xC4C), (0xC55, 0xC56),
   (0xC58, 0xC5A), (0xC5D, 0xC5D), (0xC60, 0xC63), (0xC66, 0xC6F), (0xC78, 0xC7E),
   (0xC80, 0xC83), (0xC85, 0xC8C), (0xC8E, 0xC90), (0xC92, 0xCA8), (0xCAA, 0xCB3),
   (0xCB5, 0xCB9), (0xCBD, 0xCC4), (0xCC6, 0xCC8), (0xCCA, 0xCCC), (0xCD5, 0xCD6),
   (0xCDD, 0xCDE), (0xCE0, 0xCE3), (0xCE6, 0xCEF), (0xCF1, 0xCF2), (0xD00, 0xD0C),
   (0xD0E, 0xD10), (0xD12, 0xD3A), (0xD3D, 0xD44), (0xD46, 0xD48), (0xD4A, 0xD4C),
   (0xD4E, 0xD4E), (0xD54, 0xD63), (0xD66, 0xD78), (0xD7A, 0xD7F), (0xD81, 0xD83),
   (0xD85, 0xD96), (0xD9A, 0xDB1), (0xDB3, 0xDBB), (0xDBD, 0xDBD), (0xDC0, 0xDC6),
   (0xDCF, 0xDD4), (0xDD6, 0xDD6), (0xDD8, 0xDDF), (0xDE6, 0xDEF), (0xDF2, 0xDF3),
   (0xE01, 0xE3A), (0xE40, 0xE46), (0xE4D, 0xE4D), (0xE50, 0xE59), (0xE81, 0xE82),
   (0xE84, 0xE84), (0xE86, 0xE8A), (0xE8C, 0xEA3), (0xEA5, 0xEA5), (0xEA7, 0xEB9),
   (0xEBB, 0xEBD), (0xEC0, 0xEC4), (0xEC6, 0xEC6), (0xECD, 0xECD), (0xED0, 0xED9),
   (0xEDC, 0xEDF), (0xF00, 0xF00), (0xF20, 0xF33), (0xF40, 0xF47), (0xF49, 0xF6C),
   (0xF71, 0xF81), (0xF88, 0xF97), (0xF99, 0xFBC), (0x1000, 0x1036), (0x1038, 0x1038),
   (0x103B, 0x1049), (0x1050, 0x109D), (0x10A0, 0x10C5), (0x10C7, 0x10C7), (0x10CD, 0x10CD),
   (0x10D0, 0x10FA), (0x10FC, 0x1248), (0x124A, 0x124D), (0x1250, 0x1256), (0x1258, 0x1258),
   (0x125A, 0x125D), (0x1260, 0x1288), (0x128A, 0x128D), (0x1290, 0x12B0), (0x12B2, 0x12B5),
   (0x12B8, 0x12BE), (0x12C0, 0x12C0), (0x12C2, 0x12C5), (0x12C8, 0x12D6), (0x12D8, 0x1310),
   (0x1312, 0x1315), (0x1318, 0x135A), (0x1369, 0x137C), (0x1380, 0x138F), (0x13A0, 0x13F5),
   (0x13F8, 0x13FD), (0x1401, 0x166C), (0x166F, 0x167F), (0x1681, 0x169A), (0x16A0, 0x16EA),
   (0x16EE, 0x16F8), (0x1700, 0x1713), (0x171F, 0x1733), (0x1740, 0x1753), (0x1760, 0x176C),
   (0x176E, 0x1770), (0x1772, 0x1773), (0x1780, 0x17B3), (0x17B6, 0x17C8), (0x17D7, 0x17D7),
   (0x17DC, 0x17DC), (0x17E0, 0x17E9), (0x17F0, 0x17F9), (0x1810, 0x1819), (0x1820, 0x1878),
   (0x1880, 0x18AA), (0x18B0, 0x18F5), (0x1900, 0x191E), (0x1920, 0x192B), (0x1930, 0x1938),
   (0x1946, 0x196D), (0x1970, 0x1974), (0x1980, 0x19AB), (0x19B0, 0x19C9), (0x19D0, 0x19DA),
   (0x1A00, 0x1A1B), (0x1A20, 0x1A5E), (0x1A61, 0x1A74), (0x1A80, 0x1A89), (0x1A90, 0x1A99),
   (0x1AA7, 0x1AA7), (0x1ABF, 0x1AC0), (0x1ACC, 0x1ACE), (0x1B00, 0x1B33), (0x1B35, 0x1B43),
   (0x1B45, 0x1B4C), (0x1B50, 0x1B59), (0x1B80, 0x1BA9), (0x1BAC, 0x1BE5), (0x1BE7, 0x1BF1),
   (0x1C00, 0x1C36), (0x1C40, 0x1C49), (0x1C4D, 0x1C7D), (0x1C80, 0x1C88), (0x1C90, 0x1CBA),
   (0x1CBD, 0x1CBF), (0x1CE9, 0x1CEC), (0x1CEE, 0x1CF3), (0x1CF5, 0x1CF6), (0x1CFA, 0x1CFA),
   (0x1D00, 0x1DBF), (0x1DE7, 0x1DF4), (0x1E00, 0x1F15), (0x1F18, 0x1F1D), (0x1F20, 0x1F45),
   (0x1F48, 0x1F4D), (0x1F50, 0x1F57), (0x1F59, 0x1F59), (0x1F5B, 0x1F5B), (0x1F5D, 0x1F5D),
   (0x1F5F, 0x1F7D), (0x1F80, 0x1FB4), (0x1FB6, 0x1FBC), (0x1FBE, 0x1FBE), (0x1FC2, 0x1FC4),
   (0x1FC6, 0x1FCC), (0x1FD0, 0x1FD3), (0x1FD6, 0x1FDB), (0x1FE0, 0x1FEC), (0x1FF2, 0x1FF4),
   (0x1FF6, 0x1FFC), (0x2070, 0x2071), (0x2074, 0x2079), (0x207F, 0x2089), (0x2090, 0x209C),
   (0x2102, 0x2102), (0x2107, 0x2107), (0x210A, 0x2113), (0x2115, 0x2115), (0x2119, 0x211D),
   (0x2124, 0x2124), (0x2126, 0x2126), (0x2128, 0x2128), (0x212A, 0x212D), (0x212F, 0x2139),
   (0x213C, 0x213F), (0x2145, 0x2149), (0x214E, 0x214E), (0x2150, 0x2189), (0x2460, 0x249B),
   (0x24B6, 0x24FF), (0x2776, 0x2793), (0x2C00, 0x2CE4), (0x2CEB, 0x2CEE), (0x2CF2, 0x2CF3),
   (0x2CFD, 0x2CFD), (0x2D00, 0x2D25), (0x2D27, 0x2D27), (0x2D2D, 0x2D2D), (0x2D30, 0x2D67),
   (0x2D6F, 0x2D6F), (0x2D80, 0x2D96), (0x2DA0, 0x2DA6), (0x2DA8, 0x2DAE), (0x2DB0, 0x2DB6),
   (0x2DB8, 0x2DBE), (0x2DC0, 0x2DC6), (0x2DC8, 0x2DCE), (0x2DD0, 0x2DD6), (0x2DD8, 0x2DDE),
   (0x2DE0, 0x2DFF), (0x2E2F, 0x2E2F), (0x3005, 0x3007), (0x3021, 0x3029), (0x3031, 0x3035),
   (0x3038, 0x303C), (0x3041, 0x3096), (0x309D, 0x309F), (0x30A1, 0x30FA), (0x30FC, 0x30FF),
   (0x3105, 0x312F), (0x3131, 0x318E), (0x3192, 0x3195), (0x31A0, 0x31BF), (0x31F0, 0x31FF),
   (0x3220, 0x3229), (0x3248, 0x324F), (0x3251, 0x325F), (0x3280, 0x3289), (0x32B1, 0x32BF),
   (0x3400, 0x4DBF), (0x4E00, 0xA48C), (0xA4D0, 0xA4FD), (0xA500, 0xA60C), (0xA610, 0xA62B),
   (0xA640, 0xA66E), (0xA674, 0xA67B), (0xA67F, 0xA6EF), (0xA717, 0xA71F), (0xA722, 0xA788),
   (0xA78B, 0xA7CA), (0xA7D0, 0xA7D1), (0xA7D3, 0xA7D3), (0xA7D5, 0xA7D9), (0xA7F2, 0xA805),
   (0xA807, 0xA827), (0xA830, 0xA835), (0xA840, 0xA873), (0xA880, 0xA8C3), (0xA8C5, 0xA8C5),
   (0xA8D0, 0xA8D9), (0xA8F2, 0xA8F7), (0xA8FB, 0xA8FB), (0xA8FD, 0xA92A), (0xA930, 0xA952),
   (0xA960, 0xA97C), (0xA980, 0xA9B2), (0xA9B4, 0xA9BF), (0xA9CF, 0xA9D9), (0xA9E0, 0xA9FE),
   (0xAA00, 0xAA36), (0xAA40, 0xAA4D), (0xAA50, 0xAA59), (0xAA60, 0xAA76), (0xAA7A, 0xAABE),
   (0xAAC0, 0xAAC0), (0xAAC2, 0xAAC2), (0xAADB, 0xAADD), (0xAAE0, 0xAAEF), (0xAAF2, 0xAAF5),
   (0xAB01, 0xAB06), (0xAB09, 0xAB0E), (0xAB11, 0xAB16), (0xAB20, 0xAB26), (0xAB28, 0xAB2E),
   (0xAB30, 0xAB5A), (0xAB5C, 0xAB69), (0xAB70, 0xABEA), (0xABF0, 0xABF9), (0xAC00, 0xD7A3),
   (0xD7B0, 0xD7C6), (0xD7CB, 0xD7FB), (0xF900, 0xFA6D), (0xFA70, 0xFAD9), (0xFB00, 0xFB06),
   (0xFB13, 0xFB17), (0xFB1D, 0xFB28), (0xFB2A, 0xFB36), (0xFB38, 0xFB3C), (0xFB3E, 0xFB3E),
   (0xFB40, 0xFB41), (0xFB43, 0xFB44), (0xFB46, 0xFBB1), (0xFBD3, 0xFD3D), (0xFD50, 0xFD8F),
   (0xFD92, 0xFDC7), (0xFDF0, 0xFDFB), (0xFE70, 0xFE74), (0xFE76, 0xFEFC), (0xFF10, 0xFF19),
   (0xFF21, 0xFF3A), (0xFF41, 0xFF5A), (0xFF66, 0xFFBE), (0xFFC2, 0xFFC7), (0xFFCA, 0xFFCF),
   (0xFFD2, 0xFFD7), (0xFFDA, 0xFFDC), (0x10000, 0x1000B), (0x1000D, 0x10026), (0x10028, 0x1003A),
   (0x1003C, 0x1003D), (0x1003F, 0x1004D), (0x10050, 0x1005D), (0x10080, 0x100FA), (0x10107, 0x10133),
   (0x10140, 0x10178), (0x1018A, 0x1018B), (0x10280, 0x1029C), (0x102A0, 0x102D0), (0x102E1, 0x102FB),
   (0x10300, 0x10323), (0x1032D, 0x1034A), (0x10350, 0x1037A), (0x10380, 0x1039D), (0x103A0, 0x103C3),
   (0x103C8, 0x103CF), (0x103D1, 0x103D5), (0x10400, 0x1049D), (0x104A0, 0x104A9), (0x104B0, 0x104D3),
   (0x104D8, 0x104FB), (0x10500, 0x10527), (0x10530, 0x10563), (0x10570, 0x1057A), (0x1057C, 0x1058A),
   (0x1058C, 0x10592), (0x10594, 0x10595), (0x10597, 0x105A1), (0x105A3, 0x105B1), (0x105B3, 0x105B9),
   (0x105BB, 0x105BC), (0x10600, 0x10736), (0x10740, 0x10755), (0x10760, 0x10767), (0x10780, 0x10785),
   (0x10787, 0x107B0), (0x107B2, 0x107BA), (0x10800, 0x10805), (0x10808, 0x10808), (0x1080A, 0x10835),
   (0x10837, 0x10838), (0x1083C, 0x1083C), (0x1083F, 0x10855), (0x10858, 0x10876), (0x10879, 0x1089E),
   (0x108A7, 0x108AF), (0x108E0, 0x108F2), (0x108F4, 0x108F5), (0x108FB, 0x1091B), (0x10920, 0x10939),
   (0x10980, 0x109B7), (0x109BC, 0x109CF), (0x109D2, 0x10A03), (0x10A05, 0x10A06), (0x10A0C, 0x10A13),
   (0x10A15, 0x10A17), (0x10A19, 0x10A35), (0x10A40, 0x10A48), (0x10A60, 0x10A7E), (0x10A80, 0x10A9F),
   (0x10AC0, 0x10AC7), (0x10AC9, 0x10AE4), (0x10AEB, 0x10AEF), (0x10B00, 0x10B35), (0x10B40, 0x10B55),
   (0x10B58, 0x10B72), (0x10B78, 0x10B91), (0x10BA9, 0x10BAF), (0x10C00, 0x10C48), (0x10C80, 0x10CB2),
   (0x10CC0, 0x10CF2), (0x10CFA, 0x10D27), (0x10D30, 0x10D39), (0x10E60, 0x10E7E), (0x10E80, 0x10EA9),
   (0x10EAB, 0x10EAC), (0x10EB0, 0x10EB1), (0x10F00, 0x10F27), (0x10F30, 0x10F45), (0x10F51, 0x10F54),
   (0x10F70, 0x10F81), (0x10FB0, 0x10FCB), (0x10FE0, 0x10FF6), (0x11000, 0x11045), (0x11052, 0x1106F),
   (0x11071, 0x11075), (0x11082, 0x110B8), (0x110C2, 0x110C2), (0x110D0, 0x110E8), (0x110F0, 0x110F9),
   (0x11100, 0x11132), (0x11136, 0x1113F), (0x11144, 0x11147), (0x11150, 0x11172), (0x11176, 0x11176),
   (0x11180, 0x111BF), (0x111C1, 0x111C4), (0x111CE, 0x111DA), (0x111DC, 0x111DC), (0x111E1, 0x111F4),
   (0x11200, 0x11211), (0x11213, 0x11234), (0x11237, 0x11237), (0x1123E, 0x1123E), (0x11280, 0x11286),
   (0x11288, 0x11288), (0x1128A, 0x1128D), (0x1128F, 0x1129D), (0x1129F, 0x112A8), (0x112B0, 0x112E8),
   (0x112F0, 0x112F9), (0x11300, 0x11303), (0x11305, 0x1130C), (0x1130F, 0x11310), (0x11313, 0x11328),
   (0x1132A, 0x11330), (0x11332, 0x11333), (0x11335, 0x11339), (0x1133D, 0x11344), (0x11347, 0x11348),
   (0x1134B, 0x1134C), (0x11350, 0x11350), (0x11357, 0x11357), (0x1135D, 0x11363), (0x11400, 0x11441),
   (0x11443, 0x11445), (0x11447, 0x1144A), (0x11450, 0x11459), (0x1145F, 0x11461), (0x11480, 0x114C1),
   (0x114C4, 0x114C5), (0x114C7, 0x114C7), (0x114D0, 0x114D9), (0x11580, 0x115B5), (0x115B8, 0x115BE),
   (0x115D8, 0x115DD), (0x11600, 0x1163E), (0x11640, 0x11640), (0x11644, 0x11644), (0x11650, 0x11659),
   (0x11680, 0x116B5), (0x116B8, 0x116B8), (0x116C0, 0x116C9), (0x11700, 0x1171A), (0x1171D, 0x1172A),
   (0x11730, 0x1173B), (0x11740, 0x11746), (0x11800, 0x11838), (0x118A0, 0x118F2), (0x118FF, 0x11906),
   (0x11909, 0x11909), (0x1190C, 0x11913), (0x11915, 0x11916), (0x11918, 0x11935), (0x11937, 0x11938),
   (0x1193B, 0x1193C), (0x1193F, 0x11942), (0x11950, 0x11959), (0x119A0, 0x119A7), (0x119AA, 0x119D7),
   (0x119DA, 0x119DF), (0x119E1, 0x119E1), (0x119E3, 0x119E4), (0x11A00, 0x11A32), (0x11A35, 0x11A3E),
   (0x11A50, 0x11A97), (0x11A9D, 0x11A9D), (0x11AB0, 0x11AF8), (0x11C00, 0x11C08), (0x11C0A, 0x11C36),
   (0x11C38, 0x11C3E), (0x11C40, 0x11C40), (0x11C50, 0x11C6C), (0x11C72, 0x11C8F), (0x11C92, 0x11CA7),
   (0x11CA9, 0x11CB6), (0x11D00, 0x11D06), (0x11D08, 0x11D09), (0x11D0B, 0x11D36), (0x11D3A, 0x11D3A),
   (0x11D3C, 0x11D3D), (0x11D3F, 0x11D41), (0x11D43, 0x11D43), (0x11D46, 0x11D47), (0x11D50, 0x11D59),
   (0x11D60, 0x11D65), (0x11D67, 0x11D68), (0x11D6A, 0x11D8E), (0x11D90, 0x11D91), (0x11D93, 0x11D96),
   (0x11D98, 0x11D98), (0x11DA0, 0x11DA9), (0x11EE0, 0x11EF6), (0x11FB0, 0x11FB0), (0x11FC0, 0x11FD4),
   (0x12000, 0x12399), (0x12400, 0x1246E), (0x12480, 0x12543), (0x12F90, 0x12FF0), (0x13000, 0x1342E),
   (0x14400, 0x14646), (0x16800, 0x16A38), (0x16A40, 0x16A5E), (0x16A60, 0x16A69), (0x16A70, 0x16ABE),
   (0x16AC0, 0x16AC9), (0x16AD0, 0x16AED), (0x16B00, 0x16B2F), (0x16B40, 0x16B43), (0x16B50, 0x16B59),
   (0x16B5B, 0x16B61), (0x16B63, 0x16B77), (0x16B7D, 0x16B8F), (0x16E40, 0x16E96), (0x16F00, 0x16F4A),
   (0x16F4F, 0x16F87), (0x16F8F, 0x16F9F), (0x16FE0, 0x16FE1), (0x16FE3, 0x16FE3), (0x16FF0, 0x16FF1),
   (0x17000, 0x187F7), (0x18800, 0x18CD5), (0x18D00, 0x18D08), (0x1AFF0, 0x1AFF3), (0x1AFF5, 0x1AFFB),
   (0x1AFFD, 0x1AFFE), (0x1B000, 0x1B122), (0x1B150, 0x1B152), (0x1B164, 0x1B167), (0x1B170, 0x1B2FB),
   (0x1BC00, 0x1BC6A), (0x1BC70, 0x1BC7C), (0x1BC80, 0x1BC88), (0x1BC90, 0x1BC99), (0x1BC9E, 0x1BC9E),
   (0x1D2E0, 0x1D2F3), (0x1D360, 0x1D378), (0x1D400, 0x1D454), (0x1D456, 0x1D49C), (0x1D49E, 0x1D49F),
   (0x1D4A2, 0x1D4A2), (0x1D4A5, 0x1D4A6), (0x1D4A9, 0x1D4AC), (0x1D4AE, 0x1D4B9), (0x1D4BB, 0x1D4BB),
   (0x1D4BD, 0x1D4C3), (0x1D4C5, 0x1D505), (0x1D507, 0x1D50A), (0x1D50D, 0x1D514), (0x1D516, 0x1D51C),
   (0x1D51E, 0x1D539), (0x1D53B, 0x1D53E), (0x1D540, 0x1D544), (0x1D546, 0x1D546), (0x1D54A, 0x1D550),
   (0x1D552, 0x1D6A5), (0x1D6A8, 0x1D6C0), (0x1D6C2, 0x1D6DA), (0x1D6DC, 0x1D6FA), (0x1D6FC, 0x1D714),
   (0x1D716, 0x1D734), (0x1D736, 0x1D74E), (0x1D750, 0x1D76E), (0x1D770, 0x1D788), (0x1D78A, 0x1D7A8),
   (0x1D7AA, 0x1D7C2), (0x1D7C4, 0x1D7CB), (0x1D7CE, 0x1D7FF), (0x1DF00, 0x1DF1E), (0x1E000, 0x1E006),
   (0x1E008, 0x1E018), (0x1E01B, 0x1E021), (0x1E023, 0x1E024), (0x1E026, 0x1E02A), (0x1E100, 0x1E12C),
   (0x1E137, 0x1E13D), (0x1E140, 0x1E149), (0x1E14E, 0x1E14E), (0x1E290, 0x1E2AD), (0x1E2C0, 0x1E2EB),
   (0x1E2F0, 0x1E2F9), (0x1E7E0, 0x1E7E6), (0x1E7E8, 0x1E7EB), (0x1E7ED, 0x1E7EE), (0x1E7F0, 0x1E7FE),
   (0x1E800, 0x1E8C4), (0x1E8C7, 0x1E8CF), (0x1E900, 0x1E943), (0x1E947, 0x1E947), (0x1E94B, 0x1E94B),
   (0x1E950, 0x1E959), (0x1EC71, 0x1ECAB), (0x1ECAD, 0x1ECAF), (0x1ECB1, 0x1ECB4), (0x1ED01, 0x1ED2D),
   (0x1ED2F, 0x1ED3D), (0x1EE00, 0x1EE03), (0x1EE05, 0x1EE1F), (0x1EE21, 0x1EE22), (0x1EE24, 0x1EE24),
   (0x1EE27, 0x1EE27), (0x1EE29, 0x1EE32), (0x1EE34, 0x1EE37), (0x1EE39, 0x1EE39), (0x1EE3B, 0x1EE3B),
   (0x1EE42, 0x1EE42), (0x1EE47, 0x1EE47), (0x1EE49, 0x1EE49), (0x1EE4B, 0x1EE4B), (0x1EE4D, 0x1EE4F),
   (0x1EE51, 0x1EE52), (0x1EE54, 0x1EE54), (0x1EE57, 0x1EE57), (0x1EE59, 0x1EE59), (0x1EE5B, 0x1EE5B),
   (0x1EE5D, 0x1EE5D), (0x1EE5F, 0x1EE5F), (0x1EE61, 0x1EE62), (0x1EE64, 0x1EE64), (0x1EE67, 0x1EE6A),
   (0x1EE6C, 0x1EE72), (0x1EE74, 0x1EE77), (0x1EE79, 0x1EE7C), (0x1EE7E, 0x1EE7E), (0x1EE80, 0x1EE89),
   (0x1EE8B, 0x1EE9B), (0x1EEA1, 0x1EEA3), (0x1EEA5, 0x1EEA9), (0x1EEAB, 0x1EEBB), (0x1F100, 0x1F10C),
   (0x1F130, 0x1F149), (0x1F150, 0x1F169), (0x1F170, 0x1F189), (0x1FBF0, 0x1FBF9), (0x20000, 0x2A6DF),
   (0x2A700, 0x2B738), (0x2B740, 0x2B81D), (0x2B820, 0x2CEA1), (0x2CEB0, 0x2EBE0), (0x2F800, 0x2FA1D),
   (0x30000, 0x3134A)]

/-- Rust `char::is_alphanumeric`: membership in one of the table's ranges. -/
def rustCharIsAlphanumeric (c : Char) : Bool :=
  rustAlnumRanges.any (fun r => decide (r.1 ≤ c.toNat ∧ c.toNat ≤ r.2))

/-- The per-character test of the identifier guard in `describe_table`:
`c.is_alphanumeric() || c == '_'`. -/
def validTableChar (c : Char) : Bool := rustCharIsAlphanumeric c || c == '_'

/-- The ASCII class `[A-Za-z0-9_]` named by the spec's identifier-guard
sentence; used to compare the spec's wording with the guard the code runs. -/
def inAsciiIdentClass (c : Char) : Bool :=
  let n := c.toNat
  decide (0x30 ≤ n ∧ n ≤ 0x39) || decide (0x41 ≤ n ∧ n ≤ 0x5A) ||
  decide (0x61 ≤ n ∧ n ≤ 0x7A) || (c == '_')

/-- A row as sqlx returns it for `sqlx::query`: column name to value;
`try_get` is lookup. -/
def DbRow : Type := List (String × Json)

/-- The backing store (an external collaborator) as an oracle.
`scalar sql` is the full result set of the inner query `sql` — one JSON
object per row, in the query's own order — before the wrapper's LIMIT clause
is applied; `raw sql binds` is the result set of a parameterized
`sqlx::query`.  `Except.error` models a driver error surfaced by sqlx. -/
structure DbOracle where
  scalar : String → Except String (List Json)
  raw : String → List String → Except String (List DbRow)

/-- A store with no tables and no rows, used for concrete evaluations. -/
def emptyDb : DbOracle :=
  { scalar := fun _ => Except.ok []
    raw := fun _ _ => Except.ok [] }

/-- Modelled from the spec: `error.rs` is not among the provided sources.
The handlers construct `BridgeError::Api` with a user-facing message (§7
groups these as PolicyViolation / NotFound / ProtocolError), and the `?`
operator converts an sqlx driver error (§7 UpstreamFailure) — queries.rs uses
exactly these two ways of producing a BridgeError. -/
inductive BridgeError where
  | Api (msg : String) : BridgeError
  | Db (msg : String) : BridgeError

/-- Modelled from the spec: the Display text of a BridgeError used by
`e.to_string()` in main.rs; §7 requires the user-input message to be reported
verbatim and the upstream message to be carried along. -/
def BridgeError.message : BridgeError → String
  | BridgeError.Api m => m
  | BridgeError.Db m => m

mutual
/-- Rendering of a JSON value to text, standing in for serde_json
serialization.  String escaping and the pretty printer's whitespace layout
are not reproduced; no property stated below depends on the rendered layout,
only on what is appended after it. -/
def renderJson : Json → String
  | Json.null => "null"
  | Json.bool b => if b then "true" else "false"
  | Json.num q => toString q
  | Json.str s => "\"" ++ s ++ "\""
  | Json.arr elems => "[" ++ renderList elems ++ "]"
  | Json.obj fields => "\x7b" ++ renderFields fields ++ "\x7d"

def renderList : List Json → String
  | [] => ""
  | j :: rest => renderJson j ++ (if rest.isEmpty then "" else ", ") ++ renderList rest

def renderFields : List (String × Json) → String
  | [] => ""
  | (k, v) :: rest =>
      "\"" ++ k ++ "\": " ++ renderJson v ++ (if rest.isEmpty then "" else ", ") ++ renderFields rest
end

/-- Models `serde_json::to_string_pretty(&Value::Array(rows))`.  Serialization
of a Value cannot fail, so the source's `unwrap_or_else(|_| "[]")` arm is
dead and the model is total. -/
def prettyArray (rows : List Json) : String := renderJson (Json.arr rows)

/-- The query wrapper built by sql_read_query / query_to_json:
`SELECT row_to_json(q) AS r FROM ({sql}) q LIMIT {MAX_ROWS}`. -/
def wrapQuery (sql : String) : String :=
  "SELECT row_to_json(q) AS r FROM (" ++ sql ++ ") q LIMIT " ++ toString MAX_ROWS

/-- Executing the wrapped query against the store: the oracle supplies the
inner query's full result set and the wrapper's `LIMIT MAX_ROWS` clause keeps
its first `MAX_ROWS` rows (SQL LIMIT semantics). -/
def fetchWrapped (db : DbOracle) (sql : String) : Except String (List Json) :=
  (db.scalar (wrapQuery sql)).map (fun rows => rows.take MAX_ROWS)

/-- The truncation notice appended by the shaping code:
`format!("{json}\n\n⚠️ Results truncated to {MAX_ROWS} rows.")`. -/
def truncationNotice : String :=
  "\n\n⚠️ Results truncated to " ++ toString MAX_ROWS ++ " rows."

/-- The shaping block shared (textually duplicated in the source) by
sql_read_query and query_to_json: pretty-print the fetched rows and append
the truncation notice exactly when the row count equals MAX_ROWS. -/
def shapeRows (rows : List Json) : String :=
  let json := prettyArray rows
  if rows.length = MAX_ROWS then json ++ truncationNotice else json

/-- The read-only policy error of sql_read_query. -/
def readOnlyError : BridgeError :=
  BridgeError.Api "Read-only mode: only SELECT and WITH...SELECT queries are allowed."

/-- Handler embedding: each handler returns the Rust function's
`Result<String, BridgeError>` together with the list of query texts sent to
the backing store during the call (empty list = no backing-store call). -/
def sql_read_query (db : DbOracle) (sql : String) :
    Except BridgeError String × List String :=
  if sql = "" then (Except.ok "Query is empty", [])
  else if !(is_read_only sql) then (Except.error readOnlyError, [])
  else
    match fetchWrapped db sql with
    | Except.error e => (Except.error (BridgeError.Db e), [wrapQuery sql])
    | Except.ok rows => (Except.ok (shapeRows rows), [wrapQuery sql])

/-- The fixed query of list_tables (the Rust source writes it as one string
broken by line-continuation backslashes). -/
def listTablesSql : String :=
  "SELECT table_name, table_type FROM information_schema.tables WHERE table_schema = 'public' ORDER BY table_name"

/-- sqlx `row.try_get::<String>(col).unwrap_or_default()`. -/
def rowGetString (row : DbRow) (col : String) : String :=
  match List.lookup col row with
  | some (Json.str s) => s
  | _ => ""

/-- sqlx `row.try_get::<Option<String>>(col).unwrap_or(None)`. -/
def rowGetOptString (row : DbRow) (col : String) : Option String :=
  match List.lookup col row with
  | some (Json.str s) => some s
  | _ => none

/-- queries.rs `list_tables`. -/
def list_tables (db : DbOracle) : Except BridgeError String × List String :=
  match db.raw listTablesSql [] with
  | Except.error e => (Except.error (BridgeError.Db e), [listTablesSql])
  | Except.ok rows =>
    let result := rows.map (fun row =>
      Json.obj [("table", Json.str (rowGetString row "table_name")),
                ("type", Json.str (rowGetString row "table_type"))])
    (Except.ok (prettyArray result), [listTablesSql])

/-- The fixed parameterized query of describe_table. -/
def describeColumnsSql : String :=
  "SELECT column_name, data_type, is_nullable, column_default FROM information_schema.columns WHERE table_schema = 'public' AND table_name = $1 ORDER BY ordinal_position"

/-- queries.rs `describe_table`: identifier guard, then the parameterized
information_schema query ($1 bound to the table name), then shaping.  An
empty result set yields the friendly not-found text as a success. -/
def describe_table (db : DbOracle) (table : String) :
    Except BridgeError String × List String :=
  if (table == "") || !(table.toList.all validTableChar) then
    (Except.error (BridgeError.Api ("Invalid table name: '" ++ table ++ "'")), [])
  else
    match db.raw describeColumnsSql [table] with
    | Except.error e => (Except.error (BridgeError.Db e), [describeColumnsSql])
    | Except.ok rows =>
      if rows.isEmpty then
        (Except.ok ("Table '" ++ table ++ "' not found in public schema."), [describeColumnsSql])
      else
        let result := rows.map (fun row =>
          Json.obj [("column", Json.str (rowGetString row "column_name")),
                    ("type", Json.str (rowGetString row "data_type")),
                    ("nullable", Json.bool (rowGetString row "is_nullable" == "YES")),
                    ("default", match rowGetOptString row "column_default" with
                                | some s => Json.str s
                                | none => Json.null)])
        (Except.ok (prettyArray result), [describeColumnsSql])

/-- queries.rs helper `query_to_json`: wrap, fetch, shape.  Its body is the
same fetch-and-shape block that sql_read_query inlines. -/
def query_to_json (db : DbOracle) (sql : String) :
    Except BridgeError String × List String :=
  match fetchWrapped db sql with
  | Except.error e => (Except.error (BridgeError.Db e), [wrapQuery sql])
  | Except.ok rows => (Except.ok (shapeRows rows), [wrapQuery sql])

/-- The fixed SQL of portfolio_performance. -/
def portfolioSql : String :=
  "
        SELECT
            a.name AS account_name,
            a.type AS account_type,
            h.ticker,
            ast.name AS asset_name,
            ast.sector,
            h.quantity,
            h.avg_price,
            q.close AS current_price,
            q.date AS price_date,
            ROUND((h.quantity * q.close)::numeric, 2) AS current_value,
            ROUND((h.quantity * h.avg_price)::numeric, 2) AS cost_basis,
            ROUND(((q.close - h.avg_price) * h.quantity)::numeric, 2) AS unrealized_pnl,
            ROUND(((q.close - h.avg_price) / h.avg_price * 100)::numeric, 2) AS pnl_pct
        FROM holdings h
        JOIN accounts a   ON h.account_id = a.id
        JOIN assets   ast ON h.ticker     = ast.ticker
        JOIN LATERAL (
            SELECT close, date FROM quotes
            WHERE ticker = h.ticker
            ORDER BY date DESC LIMIT 1
        ) q ON true
        ORDER BY a.name, pnl_pct ASC
    "

/-- queries.rs `portfolio_performance`. -/
def portfolio_performance (db : DbOracle) : Except BridgeError String × List String :=
  query_to_json db portfolioSql

/-- The SQL of at_risk_positions, with the validated threshold interpolated
by `format!` at its two occurrences.  The threshold is rendered by `toString`
on the rational model where Rust renders an f64; the query text is never
inspected by any stated property. -/
def atRiskSql (drawdown_threshold : Rat) : String :=
  "
        SELECT
            a.name AS account_name,
            h.ticker,
            ast.name AS asset_name,
            ast.sector,
            h.quantity,
            h.avg_price,
            q.close AS current_price,
            q.date AS price_date,
            ROUND(((q.close - h.avg_price) / h.avg_price * 100)::numeric, 2) AS drawdown_pct,
            ROUND(sentiment.avg_score::numeric, 3) AS avg_sentiment_7d,
            sig.rsi_14,
            sig.sma_50,
            sig.sma_200,
            CASE
                WHEN ((q.close - h.avg_price) / h.avg_price * 100) < -" ++ toString drawdown_threshold ++ "
                     THEN 'drawdown'
                WHEN sentiment.avg_score < -0.5
                     THEN 'negative_sentiment'
                ELSE 'both'
            END AS risk_reason
        FROM holdings h
        JOIN accounts a   ON h.account_id = a.id
        JOIN assets   ast ON h.ticker     = ast.ticker
        JOIN LATERAL (
            SELECT close, date FROM quotes
            WHERE ticker = h.ticker
            ORDER BY date DESC LIMIT 1
        ) q ON true
        LEFT JOIN LATERAL (
            SELECT AVG(sentiment_score) AS avg_score FROM news
            WHERE ticker = h.ticker
              AND date >= NOW() - INTERVAL '7 days'
        ) sentiment ON true
        LEFT JOIN LATERAL (
            SELECT rsi_14, sma_50, sma_200 FROM signals
            WHERE ticker = h.ticker
            ORDER BY date DESC LIMIT 1
        ) sig ON true
        WHERE
            ((q.close - h.avg_price) / h.avg_price * 100) < -" ++ toString drawdown_threshold ++ "
            OR sentiment.avg_score < -0.5
        ORDER BY drawdown_pct ASC
        "

/-- queries.rs `at_risk_positions`: range-check the threshold, then run the
interpolated query through query_to_json. -/
def at_risk_positions (db : DbOracle) (drawdown_threshold : Rat) :
    Except BridgeError String × List String :=
  if drawdown_threshold ≤ 0 ∨ 100 < drawdown_threshold then
    (Except.error (BridgeError.Api "drawdown_threshold must be between 0.0 and 100.0"), [])
  else query_to_json db (atRiskSql drawdown_threshold)

/-- The fixed SQL of sector_exposure. -/
def sectorSql : String :=
  "
        SELECT
            COALESCE(ast.sector, 'Unknown') AS sector,
            COUNT(DISTINCT h.ticker) AS nb_positions,
            ROUND(SUM(h.quantity * q.close)::numeric, 2) AS total_value,
            ROUND(SUM(h.quantity * q.close) / SUM(SUM(h.quantity * q.close)) OVER () * 100, 2) AS allocation_pct
        FROM holdings h
        JOIN assets ast ON h.ticker = ast.ticker
        JOIN LATERAL (
            SELECT close FROM quotes
            WHERE ticker = h.ticker
            ORDER BY date DESC LIMIT 1
        ) q ON true
        GROUP BY ast.sector
        ORDER BY total_value DESC
    "

/-- queries.rs `sector_exposure`. -/
def sector_exposure (db : DbOracle) : Except BridgeError String × List String :=
  query_to_json db sectorSql

/-- Modelled from the spec: `mcp.rs` is not among the provided sources.  The
wire Request of §3/§6 as messages_handler reads it: optional id, method,
optional params (the jsonrpc marker is not consulted by the gateway). -/
structure McpRequest where
  id : Option Json
  method : String
  params : Option Json

/-- Modelled from the spec: the wire Response of §3/§6 as messages_handler
builds it. -/
structure McpResponse where
  jsonrpc : String
  id : Json
  result : Json

/-- main.rs: `payload.id.clone().unwrap_or(Value::Null)`. -/
def requestId (req : McpRequest) : Json := req.id.getD Json.null

/-- main.rs `handle_initialize`: the capability descriptor returned
synchronously. -/
def handleInitializeJson : Json :=
  Json.obj
    [("protocolVersion", Json.str "2024-11-05"),
     ("capabilities", Json.obj [("tools", Json.obj [("listChanged", Json.bool false)])]),
     ("serverInfo", Json.obj [("name", Json.str "mcp-postgres"),
                              ("version", Json.str "0.1.0")])]

/-- main.rs `json_error`. -/
def json_error (msg : String) : Json :=
  Json.obj
    [("isError", Json.bool true),
     ("content", Json.arr [Json.obj [("type", Json.str "text"), ("text", Json.str msg)]])]

/-- The success payload built in the tools/call arm:
`json!({ "content": [{ "type": "text", "text": t }] })`. -/
def toolSuccessJson (t : String) : Json :=
  Json.obj
    [("content", Json.arr [Json.obj [("type", Json.str "text"), ("text", Json.str t)]])]

/-- main.rs: `payload.params.as_ref().and_then(|p| p.get("name")?.as_str()).unwrap_or("")`. -/
def extractToolName (params : Option Json) : String :=
  ((params.bind (fun p => (jsonGet p "name").bind jsonAsStr)).getD "")

/-- main.rs: `payload.params.as_ref().and_then(|p| p.get("arguments"))`. -/
def extractArgs (params : Option Json) : Option Json :=
  params.bind (fun p => jsonGet p "arguments")

/-- main.rs: `args.and_then(|a| a.get("sql")?.as_str()).unwrap_or("")`. -/
def extractSql (args : Option Json) : String :=
  ((args.bind (fun a => (jsonGet a "sql").bind jsonAsStr)).getD "")

/-- main.rs: `args.and_then(|a| a.get("table")?.as_str()).unwrap_or("")`. -/
def extractTable (args : Option Json) : String :=
  ((args.bind (fun a => (jsonGet a "table").bind jsonAsStr)).getD "")

/-- main.rs: `args.and_then(|a| a.get("drawdown_threshold")?.as_f64()).unwrap_or(10.0)`. -/
def extractThreshold (args : Option Json) : Rat :=
  ((args.bind (fun a => (jsonGet a "drawdown_threshold").bind jsonAsF64)).getD 10)

/-- The tool names the dispatch match of messages_handler recognizes, in the
order of its arms; every other name reaches the unknown-tool arm. -/
def registeredTools : List String :=
  ["sql_read_query", "list_tables", "describe_table",
   "portfolio_performance", "sector_exposure", "at_risk_positions"]

/-- The inner `match tool_name` of the tools/call arm in messages_handler. -/
def dispatchTool (db : DbOracle) (name : String) (args : Option Json) :
    Except BridgeError String × List String :=
  if name = "sql_read_query" then sql_read_query db (extractSql args)
  else if name = "list_tables" then list_tables db
  else if name = "describe_table" then describe_table db (extractTable args)
  else if name = "portfolio_performance" then portfolio_performance db
  else if name = "sector_exposure" then sector_exposure db
  else if name = "at_risk_positions" then at_risk_positions db (extractThreshold args)
  else (Except.error (BridgeError.Api ("Unknown tool: " ++ name)), [])

/-- The `match res` of the tools/call arm: a success payload for Ok, the
isError payload (same shape json_error builds) carrying `e.to_string()` for
Err. -/
def toolCallResult (db : DbOracle) (params : Option Json) : Json :=
  let toolName := extractToolName params
  let args := extractArgs params
  match (dispatchTool db toolName args).1 with
  | Except.ok t => toolSuccessJson t
  | Except.error e => json_error e.message

/-- main.rs `handle_list_tools`: the Tool Registry's descriptor list.  The
long free-text description strings are kept as the source writes them, with
inner whitespace as in the concat! pieces. -/
def toolsListJson : Json :=
  Json.obj [("tools", Json.arr
    [Json.obj [("name", Json.str "sql_read_query"),
               ("description", Json.str ("Query the pAItrimony financial database. " ++
                 "Use this tool to answer any question about the user's investment portfolio: " ++
                 "account balances, holdings, historical stock prices (OHLCV), " ++
                 "technical indicators (RSI, SMA, Bollinger Bands), or news sentiment scores. " ++
                 "Input must be a valid SELECT query. " ++
                 "IMPORTANT: holdings and quotes are linked via 'isin', not 'ticker'. " ++
                 "For portfolio queries, prefer using view_portfolio_summary directly. " ++
                 "The database schema is: " ++
                 "accounts(id, name, type[PEA|CTO|CRYPTO|SCPI], currency, broker); " ++
                 "assets(isin, ticker, name, type[STOCK|ETF|CRYPTO], sector, industry, country, currency); " ++
                 "holdings(id, account_id, isin, quantity, avg_price, currency); " ++
                 "quotes(isin, date, open, high, low, close, adjusted_close, volume); " ++
                 "signals(ticker, date, rsi_14, sma_50, sma_200, bb_upper, bb_lower, atr_14); " ++
                 "news(id, ticker, date, title, url, summary, sentiment_score[-1..1]); " ++
                 "alerts_log(id, ticker, alert_type, message, triggered_at); " ++
                 "analyst_ratings(ticker, date, consensus_rating, target_price_avg, analyst_count); " ++
                 "corporate_events(id, ticker, event_type, event_date, value, description); " ++
                 "portfolio_snapshots(id, account_id, snapshot_date, total_value, daily_pnl, daily_pnl_pct); " ++
                 "view_portfolio_summary(account_name, isin, ticker, asset_name, quantity, avg_price, " ++
                 "  last_price, quote_date, current_value, unrealized_pnl, pnl_pct). " ++
                 "Example — portfolio with latest price: " ++
                 "SELECT h.isin, a.ticker, a.name, h.quantity, h.avg_price " ++
                 "FROM holdings h " ++
                 "JOIN assets a ON h.isin = a.isin " ++
                 "JOIN accounts acc ON h.account_id = acc.id; " ++
                 "Example — latest quote per asset: " ++
                 "SELECT q.isin, q.close, q.date FROM quotes q " ++
                 "WHERE q.date = (SELECT MAX(date) FROM quotes WHERE isin = q.isin);")),
               ("inputSchema", Json.obj
                 [("type", Json.str "object"),
                  ("properties", Json.obj
                    [("sql", Json.obj
                      [("type", Json.str "string"),
                       ("description", Json.str "A valid SELECT or WITH...SELECT SQL query against the schema above.")])]),
                  ("required", Json.arr [Json.str "sql"])])],
     Json.obj [("name", Json.str "list_tables"),
               ("description", Json.str ("List all tables and views available in the financial database. " ++
                 "Call this first if you are unsure which tables exist.")),
               ("inputSchema", Json.obj
                 [("type", Json.str "object"),
                  ("properties", Json.obj []),
                  ("required", Json.arr [])])],
     Json.obj [("name", Json.str "describe_table"),
               ("description", Json.str ("Get the column definitions of a specific table or view in the financial database. " ++
                 "Use this before writing a sql_read_query if you need to know " ++
                 "the exact column names and types. " ++
                 "Key tables: quotes, holdings, signals, news, view_portfolio_summary.")),
               ("inputSchema", Json.obj
                 [("type", Json.str "object"),
                  ("properties", Json.obj
                    [("table", Json.obj
                      [("type", Json.str "string"),
                       ("description", Json.str ("Table or view name, e.g. 'quotes', 'holdings', " ++
                         "'signals', 'news', 'view_portfolio_summary'"))])]),
                  ("required", Json.arr [Json.str "table"])])],
     Json.obj [("name", Json.str "portfolio_performance"),
               ("description", Json.str ("Returns the current state of the user's investment portfolio: " ++
                 "all positions across all accounts (PEA, CTO, Crypto, SCPI) " ++
                 "with current market value, cost basis, unrealized profit/loss in currency and percentage. " ++
                 "Uses view_portfolio_summary internally (isin-based joins). " ++
                 "Use this to answer questions like: " ++
                 "'How is my portfolio doing?', " ++
                 "'What are my best/worst performing positions?', " ++
                 "'What is my total portfolio value?'")),
               ("inputSchema", Json.obj
                 [("type", Json.str "object"),
                  ("properties", Json.obj []),
                  ("required", Json.arr [])])],
     Json.obj [("name", Json.str "at_risk_positions"),
               ("description", Json.str ("Returns positions that are currently at risk, defined as: " ++
                 "a loss exceeding the drawdown threshold (default: -10%) " ++
                 "OR a negative average news sentiment over the last 7 days (below -0.5). " ++
                 "Also returns RSI and moving averages (SMA50, SMA200) for each flagged position. " ++
                 "Note: signals are joined via ticker, news via ticker. " ++
                 "Use this to answer questions like: " ++
                 "'What positions should I be worried about?', " ++
                 "'Are there any alerts in my portfolio?', " ++
                 "'Which stocks have bad news sentiment?'")),
               ("inputSchema", Json.obj
                 [("type", Json.str "object"),
                  ("properties", Json.obj
                    [("drawdown_threshold", Json.obj
                      [("type", Json.str "number"),
                       ("description", Json.str "Loss percentage threshold (default: 10.0 — flags positions down more than 10%)")])]),
                  ("required", Json.arr [])])],
     Json.obj [("name", Json.str "sector_exposure"),
               ("description", Json.str ("Returns the user's portfolio allocation broken down by market sector " ++
                 "(Technology, Finance, Energy, etc.): number of positions per sector, " ++
                 "total invested value, and percentage of the total portfolio. " ++
                 "Joins via isin: holdings → assets. " ++
                 "Use this to answer questions like: " ++
                 "'Am I too exposed to Tech?', " ++
                 "'What is my sector diversification?', " ++
                 "'Should I rebalance my portfolio?'")),
               ("inputSchema", Json.obj
                 [("type", Json.str "object"),
                  ("properties", Json.obj []),
                  ("required", Json.arr [])])]])]

/-- The spawned task's result computation in messages_handler: `none` models
the task returning without publishing anything (the early null-id return and
the notifications/initialized arm), `some v` the result value that proceeds
to the publish step. -/
def taskResult (db : DbOracle) (req : McpRequest) : Option Json :=
  if isNullJson (requestId req) && req.method != "notifications/initialized" then none
  else
    match req.method with
    | "tools/list" => some toolsListJson
    | "tools/call" => some (toolCallResult db req.params)
    | "notifications/initialized" => none
    | m => some (json_error ("Method " ++ m ++ " not supported"))

/-- The Response the task builds around a result value:
`McpResponse { jsonrpc: "2.0", id: request_id, result }`. -/
def taskResponse (db : DbOracle) (req : McpRequest) : Option McpResponse :=
  (taskResult db req).map
    (fun result => { jsonrpc := "2.0", id := requestId req, result := result })

/-- An observable step of the publish retry loop: one send attempt with its
outcome, or one fixed sleep (milliseconds). -/
inductive PubEvent where
  | attempt (ok : Bool) : PubEvent
  | sleep (ms : Nat) : PubEvent
deriving DecidableEq

/-- The `for _ in 0..3` retry loop of messages_handler: try a send; on
success set delivered and break; on failure sleep 100 ms and loop.  `ok i`
is the outcome `tx.send(..).is_ok()` of attempt number `i`; the fuel is the
remaining iteration count. -/
def publishLoop (ok : Nat → Bool) : Nat → Nat → List PubEvent × Bool
  | _, 0 => ([], false)
  | i, fuel + 1 =>
    if ok i then ([PubEvent.attempt true], true)
    else
      let rest := publishLoop ok (i + 1) fuel
      (PubEvent.attempt false :: PubEvent.sleep 100 :: rest.1, rest.2)

/-- The publish step run on a serialized Response: the trace of attempts and
sleeps, and the final `delivered` flag (`false` means the Response is
discarded and the delivery-failure warning is logged).  serde_json
serialization of the Response cannot fail, so the `if let Ok(json_msg)`
guard always enters. -/
def publishResponse (ok : Nat → Bool) : List PubEvent × Bool :=
  publishLoop ok 0 3

/-- Number of send attempts in a trace. -/
def countAttempts (events : List PubEvent) : Nat :=
  events.countP (fun e => match e with | PubEvent.attempt _ => true | _ => false)

/-- Models `tokio::sync::broadcast::Sender::send`, which returns Ok exactly
when at least one active Receiver exists (a lagging receiver loses old
messages but does not fail the send; with zero receivers send returns Err). -/
def broadcastSendOk (receivers : Nat) : Bool := decide (0 < receivers)

/-- How many Responses the spawned task publishes on the channel: zero when
the task returns without a result or when delivery fails, one otherwise. -/
def publishedCount (db : DbOracle) (req : McpRequest) (ok : Nat → Bool) : Nat :=
  match taskResult db req with
  | none => 0
  | some _ => if (publishResponse ok).2 then 1 else 0

/-- The synchronous part of messages_handler: its HTTP reply, the optional
synchronous body, and whether a dispatch task is spawned. -/
structure HttpReply where
  status : Nat
  body : Option McpResponse
  spawnsTask : Bool

/-- main.rs `messages_handler`, synchronous part: method `initialize` is
answered 200 with the capability Response and no task; every other request
is answered 202 Accepted and handed to a spawned task. -/
def messagesHandler (req : McpRequest) : HttpReply :=
  if req.method = "initialize" then
    { status := 200
      body := some { jsonrpc := "2.0", id := requestId req, result := handleInitializeJson }
      spawnsTask := false }
  else
    { status := 202, body := none, spawnsTask := true }

/-- Reading the isError flag of a result payload, as a client would. -/
def jsonIsError (j : Json) : Bool :=
  match jsonGet j "isError" with
  | some (Json.bool true) => true
  | _ => false

/-- Reading the first content text of a result payload, as a client would. -/
def jsonContentText (j : Json) : Option String :=
  match jsonGet j "content" with
  | some (Json.arr (first :: _)) => (jsonGet first "text").bind jsonAsStr
  | _ => none

/-- The conversion at the handler boundary in the tools/call arm of
messages_handler: a success payload for Ok, the isError payload carrying
`e.to_string()` for Err. -/
def resultPayload (res : Except BridgeError String) : Json :=
  match res with
  | Except.ok t => toolSuccessJson t
  | Except.error e => json_error e.message

/-! Helper lemmas shared by the claim theorems. -/

/-- Full case analysis of the publish retry loop over the three attempts. -/
theorem publishResponse_eq (ok : Nat → Bool) :
    publishResponse ok =
      (if ok 0 then ([PubEvent.attempt true], true)
       else if ok 1 then
         ([PubEvent.attempt false, PubEvent.sleep 100, PubEvent.attempt true], true)
       else if ok 2 then
         ([PubEvent.attempt false, PubEvent.sleep 100, PubEvent.attempt false,
           PubEvent.sleep 100, PubEvent.attempt true], true)
       else
         ([PubEvent.attempt false, PubEvent.sleep 100, PubEvent.attempt false,
           PubEvent.sleep 100, PubEvent.attempt false, PubEvent.sleep 100], false)) := by
  cases h0 : ok 0 <;> cases h1 : ok 1 <;> cases h2 : ok 2 <;>
    simp [publishResponse, publishLoop, h0, h1, h2]

/-- A code point inside one listed range passes the alphanumeric test. -/
theorem alnum_of_range (c : Char) (lo hi : Nat) (hmem : (lo, hi) ∈ rustAlnumRanges)
    (h1 : lo ≤ c.toNat) (h2 : c.toNat ≤ hi) : rustCharIsAlphanumeric c = true := by
  simp only [rustCharIsAlphanumeric, List.any_eq_true]
  exact ⟨(lo, hi), hmem, by simp [h1, h2]⟩

/-- The ASCII identifier class is contained in the guard's character test. -/
theorem ascii_ident_sub_valid (c : Char) (h : inAsciiIdentClass c = true) :
    validTableChar c = true := by
  simp only [inAsciiIdentClass, Bool.or_eq_true, decide_eq_true_eq] at h
  simp only [validTableChar, Bool.or_eq_true]
  rcases h with ((⟨h1, h2⟩ | ⟨h1, h2⟩) | ⟨h1, h2⟩) | h
  · exact Or.inl (alnum_of_range c 0x30 0x39 (by decide) h1 h2)
  · exact Or.inl (alnum_of_range c 0x41 0x5A (by decide) h1 h2)
  · exact Or.inl (alnum_of_range c 0x61 0x7A (by decide) h1 h2)
  · exact Or.inr h

/-- A tool name outside the registry reaches the unknown-tool arm. -/
theorem dispatchTool_unknown (db : DbOracle) (name : String) (args : Option Json)
    (h : name ∉ registeredTools) :
    dispatchTool db name args =
      (Except.error (BridgeError.Api ("Unknown tool: " ++ name)), []) := by
  simp only [registeredTools, List.mem_cons, List.not_mem_nil, or_false, not_or] at h
  obtain ⟨h1, h2, h3, h4, h5, h6⟩ := h
  simp [dispatchTool, h1, h2, h3, h4, h5, h6]

/-- An id-bearing request whose method is not the no-op notification always
produces a result value that proceeds to the publish step. -/
theorem taskResult_isSome (db : DbOracle) (req : McpRequest)
    (hid : isNullJson (requestId req) = false)
    (hm : req.method ≠ "notifications/initialized") :
    ∃ v, taskResult db req = some v := by
  simp only [taskResult, hid, Bool.false_and, Bool.false_eq_true, if_false]
  split
  · exact ⟨_, rfl⟩
  · exact ⟨_, rfl⟩
  · next heq => exact absurd heq hm
  · exact ⟨_, rfl⟩

/-! The claims. -/

/-- C1 (corrected): for every NON-EMPTY query text that, after trimming and
case-folding, begins with neither SELECT nor WITH, sql_read_query returns the
read-only policy-violation error and makes no backing-store call.  The claim
as frozen also covers the empty string, which the code answers with
`Ok("Query is empty")` instead (see the counterexample). -/
theorem sql_read_query_rejects_non_readonly (db : DbOracle) (sql : String)
    (hne : sql ≠ "")
    (hsel : startsWithChars "SELECT".toList (upperChars (trimChars sql.toList)) = false)
    (hwith : startsWithChars "WITH".toList (upperChars (trimChars sql.toList)) = false) :
    sql_read_query db sql = (Except.error readOnlyError, []) := by
  have hro : is_read_only sql = false := by
    simp only [is_read_only]
    rw [hsel, hwith]
    rfl
  simp [sql_read_query, hne, hro]

/-- C1 witness: `DROP TABLE x` is rejected with the policy error and no
backing-store call. -/
theorem sql_read_query_rejects_non_readonly_witness :
    sql_read_query emptyDb "DROP TABLE x" = (Except.error readOnlyError, []) :=
  sql_read_query_rejects_non_readonly emptyDb "DROP TABLE x"
    (by decide) (by decide) (by decide)

/-- C1 counterexample: the empty string does not begin with SELECT or WITH
after normalization, yet sql_read_query answers it with a SUCCESS
("Query is empty"), not with a PolicyViolation error (no backing-store call
is made either way). -/
theorem sql_read_query_empty_counterexample :
    is_read_only "" = false ∧
    sql_read_query emptyDb "" = (Except.ok "Query is empty", []) :=
  ⟨by decide, rfl⟩

/-- C2 (corrected): the identifier guard of describe_table rejects — with an
error and no backing-store query — the empty string and every string holding
a character that is neither Rust-alphanumeric (full Unicode) nor underscore;
it lets every other string through to the parameterized query.  Every
non-empty string over the ASCII class [A-Za-z0-9_] therefore passes, but the
accepted set is wider than that class (see the counterexample). -/
theorem describe_table_guard_characterization (db : DbOracle) (table : String) :
    ((table = "" ∨ ∃ c ∈ table.toList, validTableChar c = false) →
      describe_table db table =
        (Except.error (BridgeError.Api ("Invalid table name: '" ++ table ++ "'")), [])) ∧
    (table ≠ "" → (∀ c ∈ table.toList, validTableChar c = true) →
      (describe_table db table).2 = [describeColumnsSql]) ∧
    (table ≠ "" → (∀ c ∈ table.toList, inAsciiIdentClass c = true) →
      (describe_table db table).2 = [describeColumnsSql]) := by
  have hpass : table ≠ "" → (∀ c ∈ table.toList, validTableChar c = true) →
      (describe_table db table).2 = [describeColumnsSql] := by
    intro hne hall
    have h1 : (table == "") = false := by simp [hne]
    have h2 : table.toList.all validTableChar = true := List.all_eq_true.mpr hall
    simp only [describe_table, h1, h2, Bool.not_true, Bool.or_self, Bool.false_eq_true,
      if_false]
    cases hraw : db.raw describeColumnsSql [table] with
    | error e => simp
    | ok rows => cases rows <;> simp
  refine ⟨?_, hpass, ?_⟩
  · intro h
    have hguard : ((table == "") || !(table.toList.all validTableChar)) = true := by
      rcases h with h | ⟨c, hc, hcf⟩
      · rw [h]; rfl
      · have hall : table.toList.all validTableChar = false := by
          cases hA : table.toList.all validTableChar with
          | false => rfl
          | true => exact absurd (List.all_eq_true.mp hA c hc) (by simp [hcf])
        rw [hall]
        simp
    simp only [describe_table]
    rw [if_pos hguard]
  · intro hne hascii
    exact hpass hne (fun c hc => ascii_ident_sub_valid c (hascii c hc))

/-- C2 counterexample: the table name holding only U+00E9 (e with acute
accent) lies outside [A-Za-z0-9_], yet the guard accepts it and the
information_schema query is issued (the claim requires rejection before any
query is built). -/
theorem describe_table_accepts_unicode_counterexample :
    inAsciiIdentClass 'é' = false ∧
    describe_table emptyDb "é" =
      (Except.ok ("Table 'é' not found in public schema."), [describeColumnsSql]) :=
  ⟨by decide, rfl⟩

/-- C3 (confirmed): every shaping run collects at most MAX_ROWS row objects,
keeps them as a prefix of the underlying result in its original order, and
appends the truncation notice to the pretty JSON exactly when the collected
count equals MAX_ROWS (so with MAX_ROWS - 1 rows there is no notice);
sql_read_query shapes identically on its guarded path. -/
theorem query_to_json_row_cap_and_notice (db : DbOracle) (sql : String)
    (rows : List Json) (h : db.scalar (wrapQuery sql) = Except.ok rows) :
    (query_to_json db sql).1 = Except.ok (shapeRows (rows.take MAX_ROWS)) ∧
    (rows.take MAX_ROWS).length ≤ MAX_ROWS ∧
    (∃ rest, rows.take MAX_ROWS ++ rest = rows) ∧
    (shapeRows (rows.take MAX_ROWS) =
        prettyArray (rows.take MAX_ROWS) ++ truncationNotice ↔
      (rows.take MAX_ROWS).length = MAX_ROWS) ∧
    (sql ≠ "" → is_read_only sql = true →
      (sql_read_query db sql).1 = Except.ok (shapeRows (rows.take MAX_ROWS))) := by
  refine ⟨?_, ?_, ⟨rows.drop MAX_ROWS, List.take_append_drop _ _⟩, ?_, ?_⟩
  · simp [query_to_json, fetchWrapped, h, Except.map]
  · exact List.length_take_le MAX_ROWS rows
  · constructor
    · intro heq
      by_cases hlen : (rows.take MAX_ROWS).length = MAX_ROWS
      · exact hlen
      · exfalso
        have hsh : shapeRows (rows.take MAX_ROWS) = prettyArray (rows.take MAX_ROWS) := by
          simp only [shapeRows]
          rw [if_neg hlen]
        rw [hsh] at heq
        have hlenstr := congrArg String.length heq
        rw [String.length_append] at hlenstr
        have hnz : truncationNotice.length ≠ 0 := by decide
        omega
    · intro hlen
      simp only [shapeRows]
      rw [if_pos hlen]
  · intro hne hro
    simp [sql_read_query, hne, hro, fetchWrapped, h, Except.map]

/-- C3 witness: the theorem applied to a store answering the wrapped query
with no rows. -/
theorem query_to_json_row_cap_and_notice_witness :
    (query_to_json emptyDb "SELECT 1").1 =
      Except.ok (shapeRows (([] : List Json).take MAX_ROWS)) ∧
    (([] : List Json).take MAX_ROWS).length ≤ MAX_ROWS ∧
    (∃ rest, ([] : List Json).take MAX_ROWS ++ rest = ([] : List Json)) ∧
    (shapeRows (([] : List Json).take MAX_ROWS) =
        prettyArray (([] : List Json).take MAX_ROWS) ++ truncationNotice ↔
      (([] : List Json).take MAX_ROWS).length = MAX_ROWS) ∧
    ("SELECT 1" ≠ "" → is_read_only "SELECT 1" = true →
      (sql_read_query emptyDb "SELECT 1").1 =
        Except.ok (shapeRows (([] : List Json).take MAX_ROWS))) :=
  query_to_json_row_cap_and_notice emptyDb "SELECT 1" [] rfl

/-- C4 (corrected): an id-bearing dispatched Request whose method is not the
no-op notification publishes exactly one Response when some publish attempt
succeeds, and none exactly when all three attempts fail; but an id-bearing
`notifications/initialized` Request publishes nothing even on a channel that
never fails (see the counterexample), which the frozen claim excludes. -/
theorem task_publishes_at_most_once (db : DbOracle) (req : McpRequest) (ok : Nat → Bool)
    (hid : isNullJson (requestId req) = false)
    (_hini : req.method ≠ "initialize")
    (hnot : req.method ≠ "notifications/initialized") :
    publishedCount db req ok ≤ 1 ∧
    (publishedCount db req ok = 1 ↔ (ok 0 || ok 1 || ok 2) = true) ∧
    (publishedCount db req ok = 0 ↔ ok 0 = false ∧ ok 1 = false ∧ ok 2 = false) := by
  obtain ⟨v, hv⟩ := taskResult_isSome db req hid hnot
  have hp := publishResponse_eq ok
  simp only [publishedCount, hv]
  cases h0 : ok 0 <;> cases h1 : ok 1 <;> cases h2 : ok 2 <;>
    simp [h0, h1, h2] at hp <;> simp [hp, h0, h1, h2]

/-- C4 witness: a tools/list Request with id 5 on an always-delivering
channel publishes exactly one Response. -/
theorem task_publishes_at_most_once_witness :
    publishedCount emptyDb
        { id := some (Json.num 5), method := "tools/list", params := none }
        (fun _ => true) ≤ 1 ∧
    (publishedCount emptyDb
        { id := some (Json.num 5), method := "tools/list", params := none }
        (fun _ => true) = 1 ↔ (true || true || true) = true) ∧
    (publishedCount emptyDb
        { id := some (Json.num 5), method := "tools/list", params := none }
        (fun _ => true) = 0 ↔ true = false ∧ true = false ∧ true = false) :=
  task_publishes_at_most_once emptyDb
    { id := some (Json.num 5), method := "tools/list", params := none }
    (fun _ => true) rfl (by decide) (by decide)

/-- C4 counterexample: a Request carrying id 1 with method
`notifications/initialized` publishes zero Responses although the channel
accepts on first attempt (so no retry was exhausted), contradicting the
claim that no other path yields zero published Responses for an id-bearing
Request. -/
theorem notifications_initialized_with_id_counterexample :
    publishedCount emptyDb
        { id := some (Json.num 1), method := "notifications/initialized", params := none }
        (fun _ => true) = 0 ∧
    publishResponse (fun _ => true) = ([PubEvent.attempt true], true) :=
  ⟨rfl, rfl⟩

/-- C5 (corrected): a tokio broadcast publish succeeds exactly when at least
one subscriber exists; with zero subscribers the send FAILS and the publish
enters the bounded retry loop (three failing attempts, then the Response is
dropped), while a send that succeeds is never retried. -/
theorem broadcast_publish_semantics (receivers : Nat) :
    (broadcastSendOk receivers = true ↔ 0 < receivers) ∧
    publishResponse (fun _ => broadcastSendOk receivers) =
      (if 0 < receivers then ([PubEvent.attempt true], true)
       else ([PubEvent.attempt false, PubEvent.sleep 100, PubEvent.attempt false,
              PubEvent.sleep 100, PubEvent.attempt false, PubEvent.sleep 100], false)) := by
  have hp := publishResponse_eq (fun _ => broadcastSendOk receivers)
  constructor
  · simp [broadcastSendOk]
  · by_cases h : 0 < receivers
    · have hb : broadcastSendOk receivers = true := by simp [broadcastSendOk, h]
      rw [hp]
      simp [hb, h]
    · have hb : broadcastSendOk receivers = false := by simp [broadcastSendOk, h]
      rw [hp]
      simp [hb, h]

/-- C5 counterexample: with zero subscribers the publish does not succeed
trivially — the send fails and is retried through the full loop (three
attempts, 100 ms sleeps), ending undelivered. -/
theorem zero_subscriber_publish_retried_counterexample :
    broadcastSendOk 0 = false ∧
    publishResponse (fun _ => broadcastSendOk 0) =
      ([PubEvent.attempt false, PubEvent.sleep 100, PubEvent.attempt false,
        PubEvent.sleep 100, PubEvent.attempt false, PubEvent.sleep 100], false) :=
  ⟨rfl, rfl⟩

/-- C6 (confirmed): the publish step makes at most 3 send attempts in total,
with one fixed 100 ms sleep after every failed attempt (hence between
consecutive attempts), stops on the first success, and after a third failed
attempt ends undelivered — the Response is discarded (delivered = false is
exactly the all-three-failed case, and is where the source logs the
delivery-failure warning). -/
theorem publish_retry_policy (ok : Nat → Bool) :
    publishResponse ok =
      (if ok 0 then ([PubEvent.attempt true], true)
       else if ok 1 then
         ([PubEvent.attempt false, PubEvent.sleep 100, PubEvent.attempt true], true)
       else if ok 2 then
         ([PubEvent.attempt false, PubEvent.sleep 100, PubEvent.attempt false,
           PubEvent.sleep 100, PubEvent.attempt true], true)
       else
         ([PubEvent.attempt false, PubEvent.sleep 100, PubEvent.attempt false,
           PubEvent.sleep 100, PubEvent.attempt false, PubEvent.sleep 100], false)) ∧
    countAttempts (publishResponse ok).1 ≤ 3 ∧
    ((publishResponse ok).2 = false ↔ ok 0 = false ∧ ok 1 = false ∧ ok 2 = false) := by
  have hp := publishResponse_eq ok
  refine ⟨hp, ?_, ?_⟩ <;>
    rw [hp] <;>
      cases h0 : ok 0 <;> cases h1 : ok 1 <;> cases h2 : ok 2 <;>
        simp [h0, h1, h2, countAttempts]

/-- C7 (corrected): when the identifier passes the guard but the table is
absent from the public schema, describe_table returns Ok with a friendly
not-found text, and the handler boundary turns that into a SUCCESS Response
payload — isError is not set — rather than into an error Response. -/
theorem describe_table_missing_table_success (db : DbOracle) (table : String)
    (hne : table ≠ "")
    (hvalid : table.toList.all validTableChar = true)
    (hempty : db.raw describeColumnsSql [table] = Except.ok []) :
    (describe_table db table).1 =
      Except.ok ("Table '" ++ table ++ "' not found in public schema.") ∧
    resultPayload (describe_table db table).1 =
      toolSuccessJson ("Table '" ++ table ++ "' not found in public schema.") ∧
    jsonIsError (resultPayload (describe_table db table).1) = false := by
  have h1 : (table == "") = false := by simp [hne]
  have hguard : ((table == "") || !(table.toList.all validTableChar)) = false := by
    rw [h1, hvalid]
    rfl
  have hres : (describe_table db table).1 =
      Except.ok ("Table '" ++ table ++ "' not found in public schema.") := by
    simp only [describe_table]
    rw [if_neg (by rw [hguard]; exact Bool.false_ne_true)]
    rw [hempty]
    rfl
  refine ⟨hres, ?_, ?_⟩ <;> rw [hres] <;> rfl

/-- C7 witness: the theorem applied to a guarded name the empty store does
not know. -/
theorem describe_table_missing_table_success_witness :
    (describe_table emptyDb "missing_table").1 =
      Except.ok ("Table '" ++ "missing_table" ++ "' not found in public schema.") ∧
    resultPayload (describe_table emptyDb "missing_table").1 =
      toolSuccessJson ("Table '" ++ "missing_table" ++ "' not found in public schema.") ∧
    jsonIsError (resultPayload (describe_table emptyDb "missing_table").1) = false :=
  describe_table_missing_table_success emptyDb "missing_table"
    (by decide) (by decide) rfl

/-- C7 counterexample: for the absent table `quotes` the outcome is a
success — Ok text, isError not set on the resulting payload — contradicting
the claimed NotFound error Response with isError true. -/
theorem describe_table_missing_table_counterexample :
    describe_table emptyDb "quotes" =
      (Except.ok "Table 'quotes' not found in public schema.", [describeColumnsSql]) ∧
    jsonIsError (resultPayload (describe_table emptyDb "quotes").1) = false ∧
    jsonContentText (resultPayload (describe_table emptyDb "quotes").1) =
      some "Table 'quotes' not found in public schema." :=
  ⟨rfl, rfl, rfl⟩

/-- C8 (confirmed): every POSTed Request is answered 202 Accepted with a
dispatch task spawned, except method `initialize`, which is answered 200 OK
synchronously with the capability Response — whose result carries the
protocolVersion and serverInfo fields — with no task spawned and hence no
channel publish for that method. -/
theorem messages_handler_status_split (req : McpRequest) :
    (req.method = "initialize" →
      messagesHandler req =
        { status := 200
          body := some { jsonrpc := "2.0", id := requestId req,
                         result := handleInitializeJson }
          spawnsTask := false } ∧
      jsonGet handleInitializeJson "protocolVersion" = some (Json.str "2024-11-05") ∧
      jsonGet handleInitializeJson "serverInfo" =
        some (Json.obj [("name", Json.str "mcp-postgres"),
                        ("version", Json.str "0.1.0")])) ∧
    (req.method ≠ "initialize" →
      messagesHandler req = { status := 202, body := none, spawnsTask := true }) := by
  constructor
  · intro hm
    refine ⟨?_, rfl, rfl⟩
    simp [messagesHandler, hm]
  · intro hm
    simp [messagesHandler, hm]

/-- C9 (confirmed): a tools/call Request carrying an id whose tool name is
outside the registry yields the published error payload with isError true
and whose content text is exactly "Unknown tool: " followed by the submitted
name — in particular the text contains the submitted name. -/
theorem unknown_tool_error_response (db : DbOracle) (req : McpRequest)
    (hid : isNullJson (requestId req) = false)
    (hm : req.method = "tools/call")
    (hname : extractToolName req.params ∉ registeredTools) :
    taskResult db req =
      some (json_error ("Unknown tool: " ++ extractToolName req.params)) ∧
    jsonIsError (json_error ("Unknown tool: " ++ extractToolName req.params)) = true ∧
    jsonContentText (json_error ("Unknown tool: " ++ extractToolName req.params)) =
      some ("Unknown tool: " ++ extractToolName req.params) := by
  have hd := dispatchTool_unknown db (extractToolName req.params) (extractArgs req.params) hname
  have htc : toolCallResult db req.params =
      json_error ("Unknown tool: " ++ extractToolName req.params) := by
    simp [toolCallResult, hd, BridgeError.message]
  refine ⟨?_, rfl, rfl⟩
  rw [← htc]
  simp [taskResult, hid, hm]

/-- C9 witness: the unregistered name `frobnicate`. -/
theorem unknown_tool_error_response_witness :
    taskResult emptyDb
        { id := some (Json.num 2), method := "tools/call",
          params := some (Json.obj [("name", Json.str "frobnicate")]) } =
      some (json_error ("Unknown tool: " ++ "frobnicate")) ∧
    jsonIsError (json_error ("Unknown tool: " ++ "frobnicate")) = true ∧
    jsonContentText (json_error ("Unknown tool: " ++ "frobnicate")) =
      some ("Unknown tool: " ++ "frobnicate") :=
  unknown_tool_error_response emptyDb
    { id := some (Json.num 2), method := "tools/call",
      params := some (Json.obj [("name", Json.str "frobnicate")]) }
    rfl rfl (by decide)

/-- C10 (confirmed): tools/call dispatch is total over arbitrary params
shapes — a missing or non-string name is treated as the empty tool name and
yields the unknown-tool error payload, a missing sql argument becomes the
empty string (answered "Query is empty" with no store call), a missing or
non-numeric drawdown_threshold defaults to 10 and that default passes the
range check, and every id-bearing tools/call Request produces a result
value. -/
theorem tools_call_dispatch_total_defaults (db : DbOracle) (params : Option Json) :
    (params.bind (fun p => (jsonGet p "name").bind jsonAsStr) = none →
      extractToolName params = "" ∧
      toolCallResult db params = json_error ("Unknown tool: " ++ "")) ∧
    ((extractArgs params).bind (fun a => (jsonGet a "sql").bind jsonAsStr) = none →
      extractSql (extractArgs params) = "") ∧
    sql_read_query db "" = (Except.ok "Query is empty", []) ∧
    ((extractArgs params).bind (fun a => (jsonGet a "drawdown_threshold").bind jsonAsF64) = none →
      extractThreshold (extractArgs params) = 10) ∧
    at_risk_positions db 10 = query_to_json db (atRiskSql 10) ∧
    (∀ req : McpRequest, isNullJson (requestId req) = false →
      req.method = "tools/call" → ∃ v, taskResult db req = some v) := by
  refine ⟨?_, ?_, rfl, ?_, ?_, ?_⟩
  · intro hn
    have he : extractToolName params = "" := by simp [extractToolName, hn]
    refine ⟨he, ?_⟩
    have hd := dispatchTool_unknown db "" (extractArgs params) (by decide)
    simp [toolCallResult, he, hd, BridgeError.message]
  · intro hs
    simp [extractSql, hs]
  · intro ht
    simp [extractThreshold, ht]
  · have hcond : ¬((10 : Rat) ≤ 0 ∨ 100 < (10 : Rat)) := by norm_num
    simp only [at_risk_positions]
    rw [if_neg hcond]
  · intro req hid hm
    exact taskResult_isSome db req hid (by rw [hm]; decide)
